import Mathlib

/-!
Shallow embedding of the sms-employee-backend attendance and user services
(app/routes/attendance_routes.py, app/routes/auth_routes.py,
app/routes/admin_routes.py, app/services/user_service.py, app/models).

Modelling conventions:
* datetimes are integer seconds, dates integer day ordinals, hours rationals
  (the source uses Python floats; the spec allows rounding tolerance);
* SQLAlchemy queries (`db.query(...).filter(...).first()`) become `List.find?`
  over an in-memory table; autoincrement primary keys are a `nextId` counter;
* every HTTP route / service function becomes a pure function returning
  `Except Err ...`.  The per-request session (`app.dependencies.get_db`, not
  present in the sources) commits only on success, so — as spec section 7
  states, "each operation is a single atomic storage mutation" — a raised
  error leaves the store unchanged, which the `Except` shape encodes;
* each raise site is mapped to the error kind of the spec's taxonomy
  (section 6/7): 401 → unauthorized, 403 → forbidden, 404 → notFound,
  400 uniqueness violations → conflict, 400 domain-rule violations →
  invalidOperation.
-/

namespace AttendanceBackend

/-- RoleEnum from app/models/user_models.py. -/
inductive Role where
  | project_manager
  | supervisor
  | driver
  | delivery_associate
  | sweeper
  deriving DecidableEq, Repr

/-- StatusEnum from app/models/attendance_models.py. -/
inductive Status where
  | present
  | absent
  | late
  | half_day
  deriving DecidableEq, Repr

/-- Error kinds of the spec's taxonomy (section 7), which the routes map to
HTTP status codes 401/403/404/400. -/
inductive Err where
  | unauthorized
  | forbidden
  | notFound
  | conflict
  | invalidOperation
  deriving DecidableEq, Repr

/-- User row (app/models/user_models.py); dates of birth / joining are day
ordinals, irrelevant to the verified logic. -/
structure User where
  id : Int
  name : String := ""
  email : String := ""
  passwordHash : String := ""
  role : Role
  location : Option String := none
  picture : Option String := none
  dateOfBirth : Option Int := none
  joinedDate : Option Int := none
  managerId : Option Int := none
  isActive : Bool := true
  deriving DecidableEq, Repr

/-- Attendance row (app/models/attendance_models.py). -/
structure Attendance where
  id : Int
  userId : Int
  date : Int
  checkIn : Option Int := none
  checkOut : Option Int := none
  totalHours : ℚ := 0
  status : Status := Status.present
  deriving DecidableEq, Repr

/-- The attendance table plus the autoincrement counter for primary keys. -/
structure Store where
  attendance : List Attendance
  nextId : Int
  deriving DecidableEq, Repr

/-- The users table plus the autoincrement counter for primary keys. -/
structure UStore where
  users : List User
  nextUserId : Int
  deriving DecidableEq, Repr

/-- `is_manager` from app/routes/attendance_routes.py lines 21-22:
role in \x7bproject_manager, supervisor\x7d. -/
def is_manager (u : User) : Bool :=
  u.role == Role.project_manager || u.role == Role.supervisor

/-- `db.query(Attendance).filter(user_id == uid, date == d).first()`. -/
def find_attendance (l : List Attendance) (uid d : Int) : Option Attendance :=
  l.find? (fun a => a.userId == uid && a.date == d)

/-- `_compute_display_status` from app/routes/attendance_routes.py
lines 25-32. -/
def compute_display_status (record : Attendance) (today : Int) : Status :=
  if record.date < today then
    if record.checkIn = none then Status.absent
    else if record.checkOut = none then Status.half_day
    else record.status
  else record.status

/-- The inline displayed-status computation of `get_attendance_history`
(app/routes/attendance_routes.py lines 104-111): start from the stored
status and, for past dates, correct a missing check-in to absent and a
missing check-out to half_day. -/
def history_computed_status (r : Attendance) (today : Int) : Status :=
  if r.date < today then
    if r.checkIn = none then Status.absent
    else if r.checkOut = none then Status.half_day
    else r.status
  else r.status

/-- The displayed-status rule as the spec words it (section 4.2): absent when
the date is past and check_in is missing, half_day when the date is past with
a check_in but no check_out, the stored status in every other case. -/
def display_status_spec (r : Attendance) (today : Int) : Status :=
  if r.date < today ∧ r.checkIn = none then Status.absent
  else if r.date < today ∧ r.checkIn ≠ none ∧ r.checkOut = none then Status.half_day
  else r.status

/-- `check_in` route (app/routes/attendance_routes.py lines 38-58): conflict
if a record for (user, today) exists, else insert a fresh record with
check_in = now and status present. -/
def check_in (s : Store) (currentUser : User) (today now : Int) : Except Err Store :=
  match find_attendance s.attendance currentUser.id today with
  | some _ => Except.error Err.conflict
  | none =>
      let record : Attendance :=
        { id := s.nextId, userId := currentUser.id, date := today,
          checkIn := some now, checkOut := none,
          totalHours := 0, status := Status.present }
      Except.ok { attendance := s.attendance ++ [record], nextId := s.nextId + 1 }

/-- Row update performed by the `check_out` route on success: set check_out
and total_hours on the row with primary key `rid`. -/
def set_checkout (l : List Attendance) (rid ci now : Int) : List Attendance :=
  l.map (fun a =>
    if a.id == rid then
      { a with checkOut := some now, totalHours := ((now : ℚ) - (ci : ℚ)) / 3600 }
    else a)

/-- `check_out` route (app/routes/attendance_routes.py lines 61-86).
`if not record or not record.check_in` / `if record.check_out` /
`if now <= record.check_in` each raise a 400 domain error; on success the
row gets check_out = now and total_hours = (check_out - check_in) in hours. -/
def check_out (s : Store) (currentUser : User) (today now : Int) : Except Err Store :=
  match find_attendance s.attendance currentUser.id today with
  | none => Except.error Err.invalidOperation
  | some record =>
    match record.checkIn with
    | none => Except.error Err.invalidOperation
    | some ci =>
      if record.checkOut.isSome then Except.error Err.invalidOperation
      else if now ≤ ci then Except.error Err.invalidOperation
      else Except.ok { s with attendance := set_checkout s.attendance record.id ci now }

/-- AttendanceUpdate schema (app/schemas/attendance.py): all fields
optional. -/
structure AttendanceUpdatePayload where
  date : Option Int := none
  checkIn : Option Int := none
  checkOut : Option Int := none
  status : Option Status := none
  deriving DecidableEq, Repr

/-- AttendanceCreate schema (app/schemas/attendance.py): AttendanceUpdate
fields plus an optional user_id. -/
structure AttendanceCreatePayload where
  userId : Option Int := none
  date : Option Int := none
  checkIn : Option Int := none
  checkOut : Option Int := none
  status : Option Status := none
  deriving DecidableEq, Repr

/-- Python truthiness of an `Optional[int]`: None and 0 are falsy. -/
def truthy_int (o : Option Int) : Bool :=
  match o with
  | none => false
  | some v => !(v == 0)

/-- The field-by-field overrides of `update_attendance`
(app/routes/attendance_routes.py lines 261-267): each payload field that is
not None replaces the stored one. -/
def apply_payload (r : Attendance) (p : AttendanceUpdatePayload) : Attendance :=
  let r1 := match p.date with
    | some d => { r with date := d }
    | none => r
  let r2 := match p.checkIn with
    | some v => { r1 with checkIn := some v }
    | none => r1
  let r3 := match p.checkOut with
    | some v => { r2 with checkOut := some v }
    | none => r2
  match p.status with
  | some st => { r3 with status := st }
  | none => r3

/-- The duplicate-date probe of `update_attendance`
(app/routes/attendance_routes.py lines 248-260): when the payload changes the
date, look for another record of the same user at the new date. -/
def has_duplicate_date (l : List Attendance) (r : Attendance)
    (p : AttendanceUpdatePayload) : Bool :=
  match p.date with
  | some d => (l.find? (fun a => a.userId == r.userId && a.date == d && !(a.id == r.id))).isSome
  | none => false

/-- `update_attendance` route (app/routes/attendance_routes.py lines
234-276): 404 when the record is missing, 403 for non-managers (the only
access check the route performs), 400 Conflict on a duplicate date, then the
payload overrides are applied and, when both timestamps are present,
check_out ≤ check_in is a 400 domain error and total_hours is recomputed. -/
def update_attendance (s : Store) (attendanceId : Int)
    (p : AttendanceUpdatePayload) (currentUser : User) : Except Err Store :=
  match s.attendance.find? (fun a => a.id == attendanceId) with
  | none => Except.error Err.notFound
  | some record =>
    if !(is_manager currentUser) then Except.error Err.forbidden
    else if has_duplicate_date s.attendance record p then Except.error Err.conflict
    else
      let updated := apply_payload record p
      match updated.checkIn, updated.checkOut with
      | some ci, some co =>
        if co ≤ ci then Except.error Err.invalidOperation
        else Except.ok { s with attendance := s.attendance.map (fun a =>
            if a.id == record.id then
              { updated with totalHours := ((co : ℚ) - (ci : ℚ)) / 3600 }
            else a) }
      | _, _ =>
        Except.ok { s with attendance := s.attendance.map (fun a =>
            if a.id == record.id then updated else a) }

/-- `create_attendance` route (app/routes/attendance_routes.py lines
129-164): the target user defaults to the current user via Python truthiness
(`payload.user_id or current_user.id`); a truthy user_id from a non-manager
is a 403; a record already present for the target (user, date) is a 400
Conflict; check_out ≤ check_in with both present is a 400 domain error; on
success the record is inserted, with total_hours set when both timestamps
are present. -/
def create_attendance (s : Store) (p : AttendanceCreatePayload)
    (currentUser : User) (today : Int) : Except Err Store :=
  let targetUserId := match p.userId with
    | some v => if v == 0 then currentUser.id else v
    | none => currentUser.id
  if truthy_int p.userId && !(is_manager currentUser) then Except.error Err.forbidden
  else
    let targetDate := match p.date with
      | some d => d
      | none => today
    if (find_attendance s.attendance targetUserId targetDate).isSome then
      Except.error Err.conflict
    else
      let record : Attendance :=
        { id := s.nextId, userId := targetUserId, date := targetDate,
          checkIn := p.checkIn, checkOut := p.checkOut, totalHours := 0,
          status := match p.status with | some st => st | none => Status.present }
      match record.checkIn, record.checkOut with
      | some ci, some co =>
        if co ≤ ci then Except.error Err.invalidOperation
        else Except.ok
          { attendance := s.attendance ++ [{ record with totalHours := ((co : ℚ) - (ci : ℚ)) / 3600 }],
            nextId := s.nextId + 1 }
      | _, _ =>
        Except.ok { attendance := s.attendance ++ [record], nextId := s.nextId + 1 }

/-- RegisterRequest (app/routes/auth_routes.py lines 29-39), also the
UserCreate schema (app/schemas/user.py) which has the identical field set.
`role` is the outcome of the `RoleEnum(request.role)` coercion: none models
a string that names no role. -/
structure RegisterRequest where
  name : String := ""
  email : String := ""
  password : String := ""
  role : Option Role := none
  location : String := ""
  picture : Option String := none
  dateOfBirth : Option Int := none
  joinedDate : Option Int := none
  managerId : Option Int := none
  isActive : Option Bool := some true
  deriving DecidableEq, Repr

/-- UserUpdate schema (app/schemas/user.py): every field optional. `role`
uses the same convention as RegisterRequest, wrapped once more: some none
models a present role string that names no role. -/
structure UserUpdatePayload where
  name : Option String := none
  email : Option String := none
  role : Option (Option Role) := none
  location : Option String := none
  picture : Option String := none
  dateOfBirth : Option Int := none
  joinedDate : Option Int := none
  managerId : Option Int := none
  isActive : Option Bool := none
  deriving DecidableEq, Repr

/-- `db.query(User).filter(User.email == email).first()`. -/
def find_user_by_email (l : List User) (email : String) : Option User :=
  l.find? (fun u => u.email == email)

/-- `db.query(User).filter(User.id == uid).first()`. -/
def find_user_by_id (l : List User) (uid : Int) : Option User :=
  l.find? (fun u => u.id == uid)

/-- `register_user` (app/routes/auth_routes.py lines 42-68): duplicate email
is a 400 Conflict, an invalid role string a 400 domain error, and the user is
then inserted as-is — the route performs no validation of manager_id.
`hashFn` models `pwd_context.hash`. -/
def register_user (s : UStore) (req : RegisterRequest)
    (hashFn : String → String) : Except Err UStore :=
  if (find_user_by_email s.users req.email).isSome then Except.error Err.conflict
  else
    match req.role with
    | none => Except.error Err.invalidOperation
    | some roleValue =>
      Except.ok
        { users := s.users ++ [{
            id := s.nextUserId, name := req.name, email := req.email,
            passwordHash := hashFn req.password, role := roleValue,
            location := some req.location, picture := req.picture,
            dateOfBirth := req.dateOfBirth, joinedDate := req.joinedDate,
            managerId := req.managerId,
            isActive := match req.isActive with | none => true | some b => b }],
          nextUserId := s.nextUserId + 1 }

/-- `login` (app/routes/auth_routes.py lines 70-117): unknown email is a 401,
an inactive account a 403 — checked before the password —, a failing
password a 401; on success a token is issued for the user, which the ok
payload models by the user id. `verify` models `pwd_context.verify`. -/
def login (s : UStore) (email password : String)
    (verify : String → String → Bool) : Except Err Int :=
  match find_user_by_email s.users email with
  | none => Except.error Err.unauthorized
  | some user =>
    if !user.isActive then Except.error Err.forbidden
    else if !(verify password user.passwordHash) then Except.error Err.unauthorized
    else Except.ok user.id

/-- Commit of a mutated user row: the row with primary key `uid` takes the
mutated object's state. -/
def replace_user (l : List User) (uid : Int) (u : User) : List User :=
  l.map (fun v => if v.id == uid then u else v)

/-- The trailing is_active step and commit shared by the two exit paths of
`update_user_with_validation` (app/services/user_service.py lines 143-150). -/
def apply_is_active_and_commit (s : UStore) (userId actingUserId : Int)
    (u : User) (isActiveField : Option Bool) : Except Err UStore :=
  match isActiveField with
  | some b =>
    if u.id == actingUserId && b == false then Except.error Err.invalidOperation
    else Except.ok { s with users := replace_user s.users userId { u with isActive := b } }
  | none =>
    Except.ok { s with users := replace_user s.users userId u }

/-- `if name is not None: user.name = name` (user_service.py line 116). -/
def apply_name (u : User) (o : Option String) : User :=
  match o with
  | some n => { u with name := n }
  | none => u

/-- `if email is not None: ... user.email = email` (line 122). -/
def apply_email (u : User) (o : Option String) : User :=
  match o with
  | some e => { u with email := e }
  | none => u

/-- `if role is not None: user.role = RoleEnum(role)` (line 125), after the
coercion was checked. -/
def apply_role (u : User) (o : Option (Option Role)) : User :=
  match o with
  | some (some rv) => { u with role := rv }
  | _ => u

/-- The unvalidated profile-field updates of `update_user_with_validation`
(lines 128-135): location, picture, date_of_birth, joined_date. -/
def apply_profile_fields (u : User) (p : UserUpdatePayload) : User :=
  let u4 := match p.location with | some v => { u with location := some v } | none => u
  let u5 := match p.picture with | some v => { u4 with picture := some v } | none => u4
  let u6 := match p.dateOfBirth with | some v => { u5 with dateOfBirth := some v } | none => u5
  match p.joinedDate with | some v => { u6 with joinedDate := some v } | none => u6

/-- The email-uniqueness probe of `update_user_with_validation` (lines
119-121): only run when the payload carries an email; the target's own row
is excluded. -/
def email_conflict (l : List User) (p : UserUpdatePayload) (u1 : User) : Bool :=
  match p.email with
  | some e => (l.find? (fun v => v.email == e && !(v.id == u1.id))).isSome
  | none => false

/-- The manager-assignment validation and trailing steps of
`update_user_with_validation` (lines 136-150), applied to the user `u7`
carrying all preceding field updates: a present manager_id must differ from
the target's id and name an existing user with a managerial role. -/
def manager_step (s : UStore) (actingUserId userId : Int)
    (p : UserUpdatePayload) (u7 : User) : Except Err UStore :=
  match p.managerId with
  | some m =>
    if m == u7.id then Except.error Err.invalidOperation
    else
      match find_user_by_id s.users m with
      | none => Except.error Err.invalidOperation
      | some mgr =>
        if !(is_manager mgr) then Except.error Err.invalidOperation
        else apply_is_active_and_commit s userId actingUserId
            { u7 with managerId := some m } p.isActive
  | none => apply_is_active_and_commit s userId actingUserId u7 p.isActive

/-- `update_user_with_validation` (app/services/user_service.py lines
97-150): sequential field updates, each validated in source order — email
uniqueness (Conflict), role coercion, then manager assignment and the
self-deactivation guard; the session commits only at the end, so any raise
leaves the stored user unchanged. -/
def update_user_with_validation (s : UStore) (actingUserId userId : Int)
    (p : UserUpdatePayload) : Except Err UStore :=
  match find_user_by_id s.users userId with
  | none => Except.error Err.notFound
  | some user0 =>
    if email_conflict s.users p (apply_name user0 p.name) then Except.error Err.conflict
    else
      match p.role with
      | some none => Except.error Err.invalidOperation
      | roleField =>
        manager_step s actingUserId userId p
          (apply_profile_fields
            (apply_role (apply_email (apply_name user0 p.name) p.email) roleField) p)

/-- `assign_manager` (app/services/user_service.py lines 175-194): both users
must exist, the manager must hold a managerial role and differ from the
employee; then the employee's manager_id is set. -/
def assign_manager (s : UStore) (employeeId managerId : Int) : Except Err UStore :=
  match find_user_by_id s.users employeeId with
  | none => Except.error Err.notFound
  | some employee =>
    match find_user_by_id s.users managerId with
    | none => Except.error Err.notFound
    | some manager =>
      if !(is_manager manager) then Except.error Err.invalidOperation
      else if manager.id == employee.id then Except.error Err.invalidOperation
      else Except.ok { s with users := replace_user s.users employee.id { employee with managerId := some manager.id } }

/-- `target_manager_id = manager_id or current_manager_id` of
`create_user_with_manager_validation` (app/services/user_service.py line
67): Python truthiness, so a 0 falls back to the acting manager. -/
def resolve_target_manager (currentManagerId : Int) (managerId : Option Int) : Int :=
  match managerId with
  | some m => if m == 0 then currentManagerId else m
  | none => currentManagerId

/-- `create_user_with_manager_validation` (app/services/user_service.py
lines 51-94): the resolved manager must exist with a managerial role; a
duplicate email — probed only when the email is truthy — is a Conflict; the
new user is inserted with manager_id = the resolved manager. -/
def create_user_with_manager_validation (s : UStore) (currentManagerId : Int)
    (req : RegisterRequest) (hashFn : String → String) : Except Err UStore :=
  match find_user_by_id s.users (resolve_target_manager currentManagerId req.managerId) with
  | none => Except.error Err.invalidOperation
  | some manager =>
    if !(is_manager manager) then Except.error Err.invalidOperation
    else if !(req.email == "") && (find_user_by_email s.users req.email).isSome then
      Except.error Err.conflict
    else
      match req.role with
      | none => Except.error Err.invalidOperation
      | some roleValue =>
        Except.ok
          { users := s.users ++ [{
              id := s.nextUserId, name := req.name, email := req.email,
              passwordHash := hashFn req.password, role := roleValue,
              location := some req.location, picture := req.picture,
              dateOfBirth := req.dateOfBirth, joinedDate := req.joinedDate,
              managerId := some (resolve_target_manager currentManagerId req.managerId),
              isActive := match req.isActive with | none => true | some b => b }],
            nextUserId := s.nextUserId + 1 }

/-- `set_active_status` (app/services/user_service.py lines 197-212): the
self-deactivation guard raises before any mutation. -/
def set_active_status (s : UStore) (actingUserId userId : Int)
    (active : Bool) : Except Err UStore :=
  match find_user_by_id s.users userId with
  | none => Except.error Err.notFound
  | some user =>
    if user.id == actingUserId && active == false then Except.error Err.invalidOperation
    else Except.ok { s with users := replace_user s.users user.id { user with isActive := active } }

/-- Outcome message of the deactivate route. -/
inductive DeactivateOutcome where
  | alreadyDeactivated
  | deactivated
  deriving DecidableEq, Repr

/-- `deactivate_user` route (app/routes/admin_routes.py lines 260-277): the
`role_required` dependency (403), existence (404) and the `_is_in_team` check
(403) all run before the already-deactivated early return and before the
service call; a ValueError from the service surfaces as a 400 domain
error. -/
def deactivate_user (s : UStore) (currentUser : User) (userId : Int) :
    Except Err (UStore × DeactivateOutcome) :=
  if !(is_manager currentUser) then Except.error Err.forbidden
  else
    match find_user_by_id s.users userId with
    | none => Except.error Err.notFound
    | some user =>
      if !(user.managerId == some currentUser.id) then Except.error Err.forbidden
      else if !user.isActive then Except.ok (s, DeactivateOutcome.alreadyDeactivated)
      else
        match set_active_status s currentUser.id userId false with
        | Except.error _ => Except.error Err.invalidOperation
        | Except.ok s2 => Except.ok (s2, DeactivateOutcome.deactivated)

/-- A row matches the (user, today) query of the check-in/check-out routes. -/
lemma find_attendance_pred (a : Attendance) (uid d : Int) :
    (a.userId == uid && a.date == d) = true ↔ a.userId = uid ∧ a.date = d := by
  simp [Bool.and_eq_true, beq_iff_eq]

lemma find_attendance_eq_none_iff (l : List Attendance) (uid d : Int) :
    find_attendance l uid d = none ↔ ∀ r ∈ l, ¬(r.userId = uid ∧ r.date = d) := by
  unfold find_attendance
  rw [List.find?_eq_none]
  constructor
  · intro h r hr hc
    exact h r hr ((find_attendance_pred r uid d).2 hc)
  · intro h r hr hc
    exact h r hr ((find_attendance_pred r uid d).1 hc)

lemma find_attendance_eq_some (l : List Attendance) (uid d : Int) (r : Attendance)
    (h : find_attendance l uid d = some r) : r ∈ l ∧ r.userId = uid ∧ r.date = d := by
  unfold find_attendance at h
  have hm := List.mem_of_find?_eq_some h
  have hp := List.find?_some h
  simp only [Bool.and_eq_true, beq_iff_eq] at hp
  exact ⟨hm, hp⟩

/-- Claim C5: check-in fails with Conflict exactly when a record already
exists for (user, today); otherwise it appends one fresh record with
check_in = now and stored status present, and the resulting table holds
exactly one record for (user, today). -/
theorem check_in_spec (s : Store) (u : User) (today now : Int) :
    (check_in s u today now = Except.error Err.conflict ↔
      ∃ r ∈ s.attendance, r.userId = u.id ∧ r.date = today)
    ∧ (check_in s u today now = Except.error Err.conflict
        ∨ ∃ rec, check_in s u today now =
            Except.ok { attendance := s.attendance ++ [rec], nextId := s.nextId + 1 }
          ∧ rec.userId = u.id ∧ rec.date = today ∧ rec.checkIn = some now
          ∧ rec.status = Status.present
          ∧ (s.attendance ++ [rec]).countP
              (fun a => a.userId == u.id && a.date == today) = 1) := by
  unfold check_in
  cases h : find_attendance s.attendance u.id today with
  | none =>
    have hnone := (find_attendance_eq_none_iff s.attendance u.id today).1 h
    constructor
    · simp only [iff_def]
      constructor
      · intro hc
        exact absurd hc (by simp)
      · rintro ⟨r, hr, hc⟩
        exact absurd hc (hnone r hr)
    · refine Or.inr ⟨_, rfl, rfl, rfl, rfl, rfl, ?_⟩
      rw [List.countP_append]
      have h0 : s.attendance.countP (fun a => a.userId == u.id && a.date == today) = 0 := by
        rw [List.countP_eq_zero]
        intro a ha
        intro hp
        exact hnone a ha ((find_attendance_pred a u.id today).1 hp)
      rw [h0]
      simp [List.countP_cons]
  | some r =>
    constructor
    · simp only [true_iff]
      obtain ⟨hm, hu, hd⟩ := find_attendance_eq_some s.attendance u.id today r h
      exact ⟨r, hm, hu, hd⟩
    · exact Or.inl rfl

/-- Claim C4: check-out fails with InvalidOperation exactly when the (user,
today) record is missing or lacks a check_in, is already checked out, or now
is not strictly after its check_in; otherwise it sets check_out = now and
total_hours = (check_out - check_in) expressed in hours on that record. -/
theorem check_out_spec (s : Store) (u : User) (today now : Int) :
    (check_out s u today now = Except.error Err.invalidOperation ↔
      (match find_attendance s.attendance u.id today with
       | none => True
       | some r =>
           r.checkIn = none ∨ r.checkOut ≠ none ∨ ∃ ci, r.checkIn = some ci ∧ now ≤ ci))
    ∧ (∀ r ci, find_attendance s.attendance u.id today = some r →
        r.checkIn = some ci → r.checkOut = none → ci < now →
        check_out s u today now =
          Except.ok { s with attendance := set_checkout s.attendance r.id ci now }) := by
  unfold check_out
  cases h : find_attendance s.attendance u.id today with
  | none =>
    constructor
    · simp
    · intro r ci hr
      exact absurd hr (by simp)
  | some r =>
    constructor
    · cases hci : r.checkIn with
      | none => simp [hci]
      | some ci0 =>
        cases hco : r.checkOut with
        | some co0 => simp [hci, hco]
        | none =>
          by_cases hle : now ≤ ci0
          · simp [hci, hco, hle]
          · simp [hci, hco, hle]
    · intro r' ci hr' hci hco hlt
      have hrr : r = r' := by
        injection hr'
      subst hrr
      have hnle : ¬ now ≤ ci := by omega
      simp [hci, hco, hnle]

/-- Claim C4 witness: a concrete store where user 7 checked in at time 10 on
day 100; checking out at time 20 succeeds and records 10 seconds of work. -/
theorem check_out_spec_witness :
    check_out { attendance := [{ id := 1, userId := 7, date := 100, checkIn := some 10 }],
                nextId := 2 }
        { id := 7, role := Role.driver } 100 20 =
      Except.ok { attendance := [{ id := 1, userId := 7, date := 100, checkIn := some 10,
                                   checkOut := some 20, totalHours := 1 / 360,
                                   status := Status.present }],
                  nextId := 2 } := by
  have h := (check_out_spec
      { attendance := [{ id := 1, userId := 7, date := 100, checkIn := some 10 }],
        nextId := 2 }
      { id := 7, role := Role.driver } 100 20).2
    { id := 1, userId := 7, date := 100, checkIn := some 10 } 10 rfl rfl rfl (by decide)
  refine h.trans ?_
  simp only [set_checkout, List.map]
  norm_num

/-- Claim C2: for every attendance record and every value of today, the
displayed status computed by `_compute_display_status` equals: absent when the
record is past-dated with no check_in; half_day when past-dated with a
check_in but no check_out; and the stored status in every other case. -/
theorem compute_display_status_correct (r : Attendance) (today : Int) :
    compute_display_status r today = display_status_spec r today := by
  unfold compute_display_status display_status_spec
  by_cases hd : r.date < today
  · by_cases hci : r.checkIn = none
    · simp [hd, hci]
    · by_cases hco : r.checkOut = none
      · simp [hd, hci, hco]
      · simp [hd, hci, hco]
  · simp [hd]

/-- Claim C9: the inline displayed-status computation of the history route
returns the same status as `_compute_display_status` (used by the list and
get routes) on every record and every value of today. -/
theorem history_status_eq_compute_display_status (r : Attendance) (today : Int) :
    history_computed_status r today = compute_display_status r today := by
  unfold history_computed_status compute_display_status
  rfl

/-- Claim C1 counterexample: supervisor 2 updates the record of user 3 —
whose manager is user 9, not the acting supervisor — and the update
succeeds instead of failing Forbidden: the route checks only the role. -/
theorem update_attendance_no_team_scope_cex :
    update_attendance
        { attendance := [{ id := 1, userId := 3, date := 100, checkIn := some 10 }], nextId := 2 }
        1 { status := some Status.late } { id := 2, role := Role.supervisor }
      = Except.ok
          { attendance := [{ id := 1, userId := 3, date := 100, checkIn := some 10,
                             status := Status.late }],
            nextId := 2 }
    ∧ is_manager { id := 2, role := Role.supervisor } = true
    ∧ ({ id := 3, role := Role.driver, managerId := some 9 } : User).managerId ≠ some (2 : Int) := by
  refine ⟨rfl, rfl, by decide⟩

/-- Claim C1 (amended): the attendance update route enforces only the
managerial role gate — with the record present, a non-manager fails
Forbidden, while for a manager the operation never fails Forbidden,
whatever the record owner's manager linkage. -/
theorem update_attendance_role_gate_only (s : Store) (aid : Int)
    (p : AttendanceUpdatePayload) (cu : User) :
    (∀ r, s.attendance.find? (fun a => a.id == aid) = some r →
        is_manager cu = false →
        update_attendance s aid p cu = Except.error Err.forbidden)
    ∧ (is_manager cu = true →
        update_attendance s aid p cu ≠ Except.error Err.forbidden) := by
  constructor
  · intro r hr hm
    unfold update_attendance
    rw [hr]
    simp [hm]
  · intro hm hc
    unfold update_attendance at hc
    cases hfind : s.attendance.find? (fun a => a.id == aid) with
    | none =>
      rw [hfind] at hc
      exact absurd hc (by simp)
    | some r =>
      rw [hfind] at hc
      simp only [hm, Bool.not_true, Bool.false_eq_true, if_false] at hc
      by_cases hdup : has_duplicate_date s.attendance r p
      · simp [hdup] at hc
      · simp only [hdup, if_false] at hc
        cases hci : (apply_payload r p).checkIn with
        | none =>
          rw [hci] at hc
          simp at hc
        | some ci =>
          rw [hci] at hc
          cases hco : (apply_payload r p).checkOut with
          | none =>
            rw [hco] at hc
            simp at hc
          | some co =>
            rw [hco] at hc
            by_cases hle : co ≤ ci
            · simp [hle] at hc
            · simp [hle] at hc

/-- Claim C1 witness: a driver is refused the update (Forbidden), and a
project manager updating the record of a user managed by somebody else is
not refused. -/
theorem update_attendance_role_gate_only_witness :
    update_attendance
        { attendance := [{ id := 1, userId := 3, date := 100 }], nextId := 2 }
        1 {} { id := 4, role := Role.driver }
      = Except.error Err.forbidden
    ∧ update_attendance
        { attendance := [{ id := 1, userId := 3, date := 100 }], nextId := 2 }
        1 {} { id := 2, role := Role.project_manager }
      ≠ Except.error Err.forbidden := by
  constructor
  · exact (update_attendance_role_gate_only
      { attendance := [{ id := 1, userId := 3, date := 100 }], nextId := 2 }
      1 {} { id := 4, role := Role.driver }).1
      { id := 1, userId := 3, date := 100 } rfl rfl
  · exact (update_attendance_role_gate_only
      { attendance := [{ id := 1, userId := 3, date := 100 }], nextId := 2 }
      1 {} { id := 2, role := Role.project_manager }).2 rfl

/-- Claim C7 counterexample: updating record 1 of user 3 to the date of the
user's record 2, with check_out 50 ≤ check_in 100 both present in the
result, fails with Conflict (the duplicate-date check fires first), not with
InvalidOperation as the claim requires. -/
theorem update_attendance_conflict_before_time_cex :
    update_attendance
        { attendance := [{ id := 1, userId := 3, date := 10 },
                         { id := 2, userId := 3, date := 11 }], nextId := 3 }
        1 { date := some 11, checkIn := some 100, checkOut := some 50 }
        { id := 2, role := Role.project_manager }
      = Except.error Err.conflict
    ∧ (apply_payload { id := 1, userId := 3, date := 10 }
          { date := some 11, checkIn := some 100, checkOut := some 50 }).checkIn = some 100
    ∧ (apply_payload { id := 1, userId := 3, date := 10 }
          { date := some 11, checkIn := some 100, checkOut := some 50 }).checkOut = some 50
    ∧ ((50 : Int) ≤ 100)
    ∧ Err.conflict ≠ Err.invalidOperation := by
  refine ⟨rfl, rfl, rfl, by decide, by decide⟩

/-- Claim C7 (amended): when the duplicate-date Conflict check does not fire,
a manager-path update whose resulting check_in and check_out are both present
with check_out ≤ check_in fails with InvalidOperation; a failed update
returns no new store, so the stored record keeps every field unchanged. -/
theorem update_attendance_time_order (s : Store) (aid : Int)
    (p : AttendanceUpdatePayload) (cu : User) (r : Attendance) (ci co : Int)
    (hr : s.attendance.find? (fun a => a.id == aid) = some r)
    (hm : is_manager cu = true)
    (hdup : has_duplicate_date s.attendance r p = false)
    (hci : (apply_payload r p).checkIn = some ci)
    (hco : (apply_payload r p).checkOut = some co)
    (hle : co ≤ ci) :
    update_attendance s aid p cu = Except.error Err.invalidOperation := by
  unfold update_attendance
  rw [hr]
  simp [hm, hdup, hci, hco, hle]

/-- Claim C7 witness: a manager writes check_in 100 and check_out 50 onto an
existing record without changing its date; the update fails with
InvalidOperation. -/
theorem update_attendance_time_order_witness :
    update_attendance
        { attendance := [{ id := 1, userId := 3, date := 10 }], nextId := 2 }
        1 { checkIn := some 100, checkOut := some 50 }
        { id := 2, role := Role.project_manager }
      = Except.error Err.invalidOperation :=
  update_attendance_time_order
    { attendance := [{ id := 1, userId := 3, date := 10 }], nextId := 2 }
    1 { checkIn := some 100, checkOut := some 50 }
    { id := 2, role := Role.project_manager }
    { id := 1, userId := 3, date := 10 } 100 50
    rfl rfl rfl rfl rfl (by decide)

/-- Claim C10 counterexample: a driver sending user_id = 0 — a present
user_id field — is not refused: 0 is falsy in Python, so the route treats it
exactly like an omitted user_id and creates the driver's own record. -/
theorem create_attendance_zero_user_id_cex :
    create_attendance { attendance := [], nextId := 1 }
        { userId := some 0 } { id := 5, role := Role.driver } 100
      = Except.ok { attendance := [{ id := 1, userId := 5, date := 100 }], nextId := 2 }
    ∧ create_attendance { attendance := [], nextId := 1 }
        {} { id := 5, role := Role.driver } 100
      = Except.ok { attendance := [{ id := 1, userId := 5, date := 100 }], nextId := 2 }
    ∧ is_manager { id := 5, role := Role.driver } = false
    ∧ ({ userId := some 0 } : AttendanceCreatePayload).userId ≠ none := by
  refine ⟨rfl, rfl, rfl, by decide⟩

/-- Claim C10 (amended): the manual-create route refuses a non-manager with
Forbidden exactly when the payload's user_id is truthy (present and
nonzero); with a falsy user_id (absent, or present but 0) the operation is
never Forbidden and targets the acting user's own records. -/
theorem create_attendance_forbidden_iff_truthy (s : Store)
    (p : AttendanceCreatePayload) (cu : User) (today : Int) :
    (truthy_int p.userId = true → is_manager cu = false →
      create_attendance s p cu today = Except.error Err.forbidden)
    ∧ (truthy_int p.userId = false →
      create_attendance s p cu today ≠ Except.error Err.forbidden) := by
  constructor
  · intro ht hm
    unfold create_attendance
    simp [ht, hm]
  · intro ht hc
    unfold create_attendance at hc
    rw [ht] at hc
    repeat' split at hc
    all_goals (try simp_all)
    all_goals (repeat' split at hc)
    all_goals simp_all

/-- Claim C10 witness: a driver naming their own positive user id is refused
with Forbidden, while the same driver omitting the field is not refused. -/
theorem create_attendance_forbidden_iff_truthy_witness :
    create_attendance { attendance := [], nextId := 1 }
        { userId := some 5 } { id := 5, role := Role.driver } 100
      = Except.error Err.forbidden
    ∧ create_attendance { attendance := [], nextId := 1 }
        {} { id := 5, role := Role.driver } 100
      ≠ Except.error Err.forbidden := by
  constructor
  · exact (create_attendance_forbidden_iff_truthy { attendance := [], nextId := 1 }
      { userId := some 5 } { id := 5, role := Role.driver } 100).1 rfl rfl
  · exact (create_attendance_forbidden_iff_truthy { attendance := [], nextId := 1 }
      {} { id := 5, role := Role.driver } 100).2 rfl

lemma find_user_by_id_eq_some (l : List User) (uid : Int) (u : User)
    (h : find_user_by_id l uid = some u) : u ∈ l ∧ u.id = uid := by
  unfold find_user_by_id at h
  have hm := List.mem_of_find?_eq_some h
  have hp := List.find?_some h
  simp only [beq_iff_eq] at hp
  exact ⟨hm, hp⟩

lemma apply_name_id (u : User) (o : Option String) : (apply_name u o).id = u.id := by
  cases o <;> rfl

lemma apply_email_id (u : User) (o : Option String) : (apply_email u o).id = u.id := by
  cases o <;> rfl

lemma apply_role_id (u : User) (o : Option (Option Role)) : (apply_role u o).id = u.id := by
  rcases o with _ | ro
  · rfl
  · cases ro <;> rfl

lemma apply_profile_fields_id (u : User) (p : UserUpdatePayload) :
    (apply_profile_fields u p).id = u.id := by
  unfold apply_profile_fields
  rcases hL : p.location <;> rcases hP : p.picture <;>
    rcases hD : p.dateOfBirth <;> rcases hJ : p.joinedDate <;> simp [hL, hP, hD, hJ]

lemma manager_step_ok (s : UStore) (a uid : Int) (p : UserUpdatePayload)
    (u7 : User) (m : Int) (s2 : UStore)
    (hm : p.managerId = some m) (h : manager_step s a uid p u7 = Except.ok s2) :
    m ≠ u7.id ∧ ∃ mgr, find_user_by_id s.users m = some mgr ∧ is_manager mgr = true := by
  unfold manager_step at h
  simp only [hm] at h
  by_cases hself : (m == u7.id) = true
  · rw [if_pos hself] at h
    exact absurd h (by simp)
  · have hself2 : (m == u7.id) = false := by
      rwa [Bool.not_eq_true] at hself
    rw [if_neg hself] at h
    cases hfm : find_user_by_id s.users m with
    | none =>
      rw [hfm] at h
      exact absurd h (by simp)
    | some mgr =>
      simp only [hfm] at h
      by_cases hnm : (!(is_manager mgr)) = true
      · rw [if_pos hnm] at h
        exact absurd h (by simp)
      · refine ⟨?_, mgr, rfl, by simpa using hnm⟩
        intro hcontra
        rw [hcontra] at hself2
        simp at hself2

/-- Claim C8 counterexample: an inactive account with a matching email fails
login with Forbidden — checked even before the password is verified — not
with Unauthorized as the claim requires. -/
theorem login_inactive_forbidden_cex :
    login { users := [{ id := 1, email := "a", passwordHash := "h", role := Role.driver,
                        isActive := false }],
            nextUserId := 2 }
        "a" "pw" (fun _ _ => true)
      = Except.error Err.forbidden
    ∧ Err.forbidden ≠ Err.unauthorized := by
  exact ⟨rfl, by decide⟩

/-- Claim C8 (amended): login fails with Unauthorized on an unknown email or,
for an active account, on a failing password; an inactive account fails with
Forbidden, checked before the password is verified; only active accounts with
verifying credentials receive a token. -/
theorem login_spec (s : UStore) (email pw : String)
    (verify : String → String → Bool) :
    (find_user_by_email s.users email = none →
        login s email pw verify = Except.error Err.unauthorized)
    ∧ (∀ u, find_user_by_email s.users email = some u → u.isActive = false →
        login s email pw verify = Except.error Err.forbidden)
    ∧ (∀ u, find_user_by_email s.users email = some u → u.isActive = true →
        verify pw u.passwordHash = false →
        login s email pw verify = Except.error Err.unauthorized)
    ∧ (∀ u, find_user_by_email s.users email = some u → u.isActive = true →
        verify pw u.passwordHash = true →
        login s email pw verify = Except.ok u.id) := by
  refine ⟨?_, ?_, ?_, ?_⟩
  · intro h
    unfold login
    rw [h]
  · intro u h ha
    unfold login
    rw [h]
    simp [ha]
  · intro u h ha hv
    unfold login
    rw [h]
    simp [ha, hv]
  · intro u h ha hv
    unfold login
    rw [h]
    simp [ha, hv]

/-- Claim C8 witness: with users a (active) and b (inactive) whose stored
hash equals the plaintext under the model verifier, the four login outcomes
are exercised at concrete inputs. -/
theorem login_spec_witness :
    login { users := [{ id := 1, email := "a", passwordHash := "h", role := Role.driver },
                      { id := 2, email := "b", passwordHash := "h", role := Role.driver,
                        isActive := false }],
            nextUserId := 3 }
        "z" "pw" (fun pw0 hash0 => pw0 == hash0) = Except.error Err.unauthorized
    ∧ login { users := [{ id := 1, email := "a", passwordHash := "h", role := Role.driver },
                        { id := 2, email := "b", passwordHash := "h", role := Role.driver,
                          isActive := false }],
              nextUserId := 3 }
        "b" "pw" (fun pw0 hash0 => pw0 == hash0) = Except.error Err.forbidden
    ∧ login { users := [{ id := 1, email := "a", passwordHash := "h", role := Role.driver },
                        { id := 2, email := "b", passwordHash := "h", role := Role.driver,
                          isActive := false }],
              nextUserId := 3 }
        "a" "bad" (fun pw0 hash0 => pw0 == hash0) = Except.error Err.unauthorized
    ∧ login { users := [{ id := 1, email := "a", passwordHash := "h", role := Role.driver },
                        { id := 2, email := "b", passwordHash := "h", role := Role.driver,
                          isActive := false }],
              nextUserId := 3 }
        "a" "h" (fun pw0 hash0 => pw0 == hash0) = Except.ok 1 := by
  refine ⟨?_, ?_, ?_, ?_⟩
  · exact (login_spec _ "z" "pw" _).1 rfl
  · exact (login_spec _ "b" "pw" _).2.1
      { id := 2, email := "b", passwordHash := "h", role := Role.driver, isActive := false }
      rfl rfl
  · exact (login_spec _ "a" "bad" _).2.2.1
      { id := 1, email := "a", passwordHash := "h", role := Role.driver } rfl rfl rfl
  · exact (login_spec _ "a" "h" _).2.2.2
      { id := 1, email := "a", passwordHash := "h", role := Role.driver } rfl rfl rfl

/-- Claim C3 counterexample: registration stores manager_id without any
validation — user 2 is registered with driver 1 (no managerial role) as
manager, and a first registered user can even name their own id (1) as
manager_id, violating both halves of the invariant. -/
theorem register_skips_manager_validation_cex :
    register_user { users := [{ id := 1, email := "a", passwordHash := "h", role := Role.driver }],
                    nextUserId := 2 }
        { email := "b", role := some Role.sweeper, managerId := some 1 } (fun pw => pw)
      = Except.ok
          { users := [{ id := 1, email := "a", passwordHash := "h", role := Role.driver },
                      { id := 2, email := "b", role := Role.sweeper, location := some "",
                        managerId := some 1 }],
            nextUserId := 3 }
    ∧ is_manager { id := 1, email := "a", passwordHash := "h", role := Role.driver } = false
    ∧ register_user { users := [], nextUserId := 1 }
        { email := "c", role := some Role.driver, managerId := some 1 } (fun pw => pw)
      = Except.ok
          { users := [{ id := 1, email := "c", role := Role.driver, location := some "",
                        managerId := some 1 }],
            nextUserId := 2 }
    ∧ ({ id := 1, email := "c", role := Role.driver, location := some "",
         managerId := some 1 } : User).managerId
      = some ({ id := 1, email := "c", role := Role.driver, location := some "",
                managerId := some 1 } : User).id := by
  exact ⟨rfl, rfl, rfl, rfl⟩

/-- Claim C3 (amended): the validated paths — user update, manager
assignment, and manager-initiated creation — accept a manager link only when
it names an existing user with a managerial role and (for update and
assignment) differs from the target's id; registration stores any supplied
manager_id without validation. -/
theorem manager_link_validated (s : UStore) (actingId uid m employeeId mgrId curMgrId : Int)
    (p : UserUpdatePayload) (req : RegisterRequest) (hashFn : String → String) :
    (∀ s2, p.managerId = some m →
        update_user_with_validation s actingId uid p = Except.ok s2 →
        m ≠ uid ∧ ∃ mgr, find_user_by_id s.users m = some mgr ∧ is_manager mgr = true)
    ∧ (∀ s2, assign_manager s employeeId mgrId = Except.ok s2 →
        mgrId ≠ employeeId
        ∧ ∃ mgr, find_user_by_id s.users mgrId = some mgr ∧ is_manager mgr = true)
    ∧ (∀ s2, create_user_with_manager_validation s curMgrId req hashFn = Except.ok s2 →
        ∃ mgr, find_user_by_id s.users (resolve_target_manager curMgrId req.managerId) = some mgr
          ∧ is_manager mgr = true) := by
  refine ⟨?_, ?_, ?_⟩
  · intro s2 hm hok
    unfold update_user_with_validation at hok
    cases hfind : find_user_by_id s.users uid with
    | none =>
      rw [hfind] at hok
      exact absurd hok (by simp)
    | some user0 =>
      simp only [hfind] at hok
      obtain ⟨hmem, hid⟩ := find_user_by_id_eq_some s.users uid user0 hfind
      by_cases hec : email_conflict s.users p (apply_name user0 p.name) = true
      · rw [if_pos hec] at hok
        exact absurd hok (by simp)
      · rw [if_neg hec] at hok
        rcases hrole : p.role with _ | ro
        · simp only [hrole] at hok
          obtain ⟨hne, mgr, hfm, hmg⟩ := manager_step_ok _ _ _ _ _ _ _ hm hok
          refine ⟨?_, mgr, hfm, hmg⟩
          rw [apply_profile_fields_id, apply_role_id, apply_email_id, apply_name_id, hid] at hne
          exact hne
        · rcases ro with _ | rv
          · simp [hrole] at hok
          · simp only [hrole] at hok
            obtain ⟨hne, mgr, hfm, hmg⟩ := manager_step_ok _ _ _ _ _ _ _ hm hok
            refine ⟨?_, mgr, hfm, hmg⟩
            rw [apply_profile_fields_id, apply_role_id, apply_email_id, apply_name_id, hid] at hne
            exact hne
  · intro s2 hok
    unfold assign_manager at hok
    cases hfe : find_user_by_id s.users employeeId with
    | none =>
      rw [hfe] at hok
      exact absurd hok (by simp)
    | some employee =>
      simp only [hfe] at hok
      obtain ⟨hmeme, hide⟩ := find_user_by_id_eq_some s.users employeeId employee hfe
      cases hfm : find_user_by_id s.users mgrId with
      | none =>
        rw [hfm] at hok
        exact absurd hok (by simp)
      | some manager =>
        simp only [hfm] at hok
        obtain ⟨hmemm, hidm⟩ := find_user_by_id_eq_some s.users mgrId manager hfm
        by_cases hnm : (!(is_manager manager)) = true
        · rw [if_pos hnm] at hok
          exact absurd hok (by simp)
        · rw [if_neg hnm] at hok
          by_cases hsame : (manager.id == employee.id) = true
          · rw [if_pos hsame] at hok
            exact absurd hok (by simp)
          · refine ⟨?_, manager, rfl, by simpa using hnm⟩
            intro hcontra
            apply hsame
            simp only [beq_iff_eq, hidm, hide, hcontra]
  · intro s2 hok
    unfold create_user_with_manager_validation at hok
    cases hfm : find_user_by_id s.users (resolve_target_manager curMgrId req.managerId) with
    | none =>
      rw [hfm] at hok
      exact absurd hok (by simp)
    | some manager =>
      simp only [hfm] at hok
      by_cases hnm : (!(is_manager manager)) = true
      · rw [if_pos hnm] at hok
        exact absurd hok (by simp)
      · exact ⟨manager, rfl, by simpa using hnm⟩

/-- Claim C3 witness: assigning existing project manager 1 to driver 3 via
the update path succeeds, so the theorem yields that 1 is not 3 and that the
stored manager holds a managerial role. -/
theorem manager_link_validated_witness :
    (1 : Int) ≠ 3
    ∧ ∃ mgr, find_user_by_id
        [{ id := 1, email := "a", passwordHash := "h", role := Role.project_manager },
         { id := 3, email := "c", passwordHash := "h", role := Role.driver }] 1 = some mgr
      ∧ is_manager mgr = true := by
  exact (manager_link_validated
      { users := [{ id := 1, email := "a", passwordHash := "h", role := Role.project_manager },
                  { id := 3, email := "c", passwordHash := "h", role := Role.driver }],
        nextUserId := 4 }
      9 3 1 0 0 0 { managerId := some 1 } {} (fun pw => pw)).1
    { users := [{ id := 1, email := "a", passwordHash := "h", role := Role.project_manager },
                { id := 3, email := "c", passwordHash := "h", role := Role.driver,
                  managerId := some 1 }],
      nextUserId := 4 }
    rfl rfl

/-- Claim C6 counterexample: project manager 1 — not recorded as their own
manager — deactivating their own account fails with Forbidden at the
`_is_in_team` gate of the route, not with InvalidOperation as the claim
requires. -/
theorem self_deactivation_forbidden_cex :
    deactivate_user { users := [{ id := 1, role := Role.project_manager }], nextUserId := 2 }
        { id := 1, role := Role.project_manager } 1
      = Except.error Err.forbidden
    ∧ Err.forbidden ≠ Err.invalidOperation := by
  exact ⟨rfl, by decide⟩

/-- Claim C6 (amended): the self-deactivation guard lives in the service
layer — `set_active_status` and the update path fail with InvalidOperation
when the target id equals the acting id and the flag is false, before any
mutation — while the deactivate route checks team membership first, so an
acting manager deactivating their own active account gets InvalidOperation
exactly when recorded as their own manager, and Forbidden otherwise. -/
theorem self_deactivation_guard :
    (∀ s actingId uid u, find_user_by_id s.users uid = some u → u.id = actingId →
        set_active_status s actingId uid false = Except.error Err.invalidOperation)
    ∧ (∀ s actingId uid u, find_user_by_id s.users uid = some u → u.id = actingId →
        update_user_with_validation s actingId uid { isActive := some false }
          = Except.error Err.invalidOperation)
    ∧ (∀ s cu, is_manager cu = true → find_user_by_id s.users cu.id = some cu →
        cu.isActive = true →
        deactivate_user s cu cu.id =
          (if cu.managerId == some cu.id then Except.error Err.invalidOperation
           else Except.error Err.forbidden)) := by
  refine ⟨?_, ?_, ?_⟩
  · intro s actingId uid u hfind hid
    unfold set_active_status
    rw [hfind]
    simp [hid]
  · intro s actingId uid u hfind hid
    unfold update_user_with_validation
    rw [hfind]
    simp [email_conflict, manager_step, apply_is_active_and_commit, apply_profile_fields,
      apply_role, apply_email, apply_name, hid]
  · intro s cu hm hfind hact
    unfold deactivate_user
    rw [hfind]
    simp only [hm, Bool.not_true, Bool.false_eq_true, if_false]
    by_cases hteam : (cu.managerId == some cu.id) = true
    · rw [hteam]
      simp only [Bool.not_true, Bool.false_eq_true, if_false, hact, if_pos]
      unfold set_active_status
      rw [hfind]
      simp [hteam]
    · rw [Bool.not_eq_true] at hteam
      rw [hteam]
      simp

/-- Claim C6 witness: the service guard refuses self-deactivation of user 1
with InvalidOperation, and the route refuses the same manager — whose
manager_id is unset — with Forbidden. -/
theorem self_deactivation_guard_witness :
    set_active_status { users := [{ id := 1, role := Role.project_manager }], nextUserId := 2 }
        1 1 false = Except.error Err.invalidOperation
    ∧ deactivate_user { users := [{ id := 2, role := Role.supervisor, managerId := some 2,
                                    isActive := true }],
                        nextUserId := 3 }
        { id := 2, role := Role.supervisor, managerId := some 2, isActive := true } 2
      = Except.error Err.invalidOperation := by
  constructor
  · exact self_deactivation_guard.1
      { users := [{ id := 1, role := Role.project_manager }], nextUserId := 2 }
      1 1 { id := 1, role := Role.project_manager } rfl rfl
  · have h := self_deactivation_guard.2.2
      { users := [{ id := 2, role := Role.supervisor, managerId := some 2, isActive := true }],
        nextUserId := 3 }
      { id := 2, role := Role.supervisor, managerId := some 2, isActive := true } rfl rfl rfl
    exact h.trans (by rfl)

end AttendanceBackend
